import Mathlib

/-!
Verification development for the COGNICORE negotiation agents
(`negotiation_agent_COGNICORE.py`).

The per-round decision cores of `YourBuyerAgent` and `YourSellerAgent` are
embedded as pure Lean functions over explicit agent state.  Conventions of
the embedding:

* Python machine integers are modelled as `ℤ` (they are unbounded in Python).
* Python float products such as `int(budget * 0.78)` are modelled exactly as
  rational arithmetic followed by truncation toward zero: `pydiv (78 * budget) 100`.
  Float rounding error of the CPython runtime is outside the scope of the model.
* The float power `eased = ((r - 1) / 9.0) ** 0.9` is an irrational number and
  is modelled by an abstract rational `en / ed` threaded as two integer
  parameters; since the base lies in `[0, 1]`, the modelled value satisfies
  `0 ≤ en ≤ ed`, which is all any theorem below uses.  No decision in the code
  depends on its exact value other than through the dynamic-target comparison,
  which is kept symbolic.
* `random.choice` over the fixed lead/tail phrase lists is modelled by two
  index parameters `rl rt : ℕ` taken modulo the list length.
* Python truthiness tests on optional integers (`if observed:`) are modelled
  by pattern matching plus an explicit `≠ 0` test.
* The mutable `self._state` dict is modelled as an explicit `AgentState`
  record threaded through the functions; `_init_state` with its `hasattr`
  guard becomes `Option AgentState → AgentState` via `Option.getD`.
-/

/-- Truncation-toward-zero division, `int(a / n)` of Python for a positive
divisor `n`: Euclidean division for a nonnegative dividend, negated division
of the negation otherwise. -/
def pydiv (a n : ℤ) : ℤ := if 0 ≤ a then a / n else -((-a) / n)

/-- The `DealStatus` enumeration of the source (`ONGOING`, `ACCEPTED`,
`REJECTED`, `TIMEOUT`). -/
inductive DealStatus where
  | ONGOING
  | ACCEPTED
  | REJECTED
  | TIMEOUT
deriving DecidableEq, Repr

/-- The `Product` dataclass.  The free-form `attributes` mapping is modelled as a
string association list; the core never reads it. -/
structure Product where
  name : String
  category : String
  quantity : ℤ
  quality_grade : String
  origin : String
  base_market_price : ℤ
  attributes : List (String × String)
deriving DecidableEq, Repr

/-- The `NegotiationContext` dataclass.  `messages` holds role-tagged message
pairs; the core never reads it. -/
structure NegotiationContext where
  product : Product
  your_budget : ℤ
  current_round : ℤ
  seller_offers : List ℤ
  your_offers : List ℤ
  messages : List (String × String)
deriving DecidableEq, Repr

/-- Boolean test that the character list `kw` is an initial segment of `t`. -/
def prefixEqCh : List Char → List Char → Bool
  | [], _ => true
  | _ :: _, [] => false
  | a :: as, b :: bs => a == b && prefixEqCh as bs

/-- Boolean substring test on character lists, modelling the Python
`kw in t` membership test for strings. -/
def hasSubCh (kw : List Char) : List Char → Bool
  | [] => prefixEqCh kw []
  | c :: rest => prefixEqCh kw (c :: rest) || hasSubCh kw rest

/-- Lower-cased character list of a string, modelling `text.lower()`. -/
def lowerChars (s : String) : List Char := s.toList.map Char.toLower

/-- Number of keywords of `kws` occurring as substrings of `t`, as an
integer.  Each keyword is counted once, exactly as the Python loop
`for kw in kws: if kw in t: score += w` does. -/
def keywordHits (t : List Char) (kws : List String) : ℤ :=
  (kws.countP (fun kw => hasSubCh kw.toList t) : ℕ)

/-- Digit-or-comma run at the head of a character list (regex `[\d,]+`). -/
def digitCommaRun (cs : List Char) : List Char :=
  cs.takeWhile (fun c => c.isDigit || c == ',')

/-- Leftmost match of the regex `₹\s*([\d,]+)`: the first rupee sign that is
followed, after whitespace, by at least one digit or comma; returns the
captured digit-and-comma group. -/
def findRupeeGroup : List Char → Option (List Char)
  | [] => none
  | c :: rest =>
    if c == '₹' then
      let run := digitCommaRun (rest.dropWhile (fun w => w.isWhitespace))
      if run ≠ [] then some run else findRupeeGroup rest
    else findRupeeGroup rest

/-- Leftmost match of the regex `(\d{5,})`: the first maximal digit run of
length at least five.  Scanning every position is equivalent to skipping
short runs, since a position inside a run starts a shorter run. -/
def findLongDigitRun : List Char → Option (List Char)
  | [] => none
  | c :: rest =>
    let run := if c.isDigit then c :: rest.takeWhile (fun d => d.isDigit) else []
    if 5 ≤ run.length then some run else findLongDigitRun rest

/-- Integer value of a digit character list (`int` of the digit string). -/
def parseDigits (cs : List Char) : ℤ :=
  cs.foldl (fun a c => a * 10 + ((c.toNat : ℤ) - 48)) 0

namespace YourBuyerAgent

/-- The lazily created `self._state` dict of `YourBuyerAgent`: counterpart
offer history, running minimum, decayed floor estimate, the concession
ledger keyed by actor, and the last observed tone. -/
structure AgentState where
  seller_history : List ℤ
  min_seller_seen : Option ℤ
  seller_min_est : Option ℤ
  concessions_buyer : List ℤ
  concessions_seller : List ℤ
  last_seller_tone : String
deriving DecidableEq, Repr

/-- The fresh state built by `_init_state` on first use. -/
def initial_state : AgentState :=
  { seller_history := []
    min_seller_seen := none
    seller_min_est := none
    concessions_buyer := []
    concessions_seller := []
    last_seller_tone := "neutral" }

/-- The `_init_state`: the `hasattr` guard keeps an existing state and creates
the fresh one only when none exists yet. -/
def init_state (s : Option AgentState) : AgentState := s.getD initial_state

/-- The `_record_concession(actor, amount)`: append to the ledger list of the
given actor. -/
def record_concession (st : AgentState) (actor : String) (amount : ℤ) : AgentState :=
  if actor = "buyer" then
    { st with concessions_buyer := st.concessions_buyer ++ [amount] }
  else if actor = "seller" then
    { st with concessions_seller := st.concessions_seller ++ [amount] }
  else st

/-- The `analyze_seller_tone`: keyword scoring into emotional, logical or
neutral.  Empty text is neutral. -/
def analyze_seller_tone (text : String) : String :=
  if text = "" then "neutral"
  else
    let t := lowerChars text
    let emotional := ["angry", "insult", "unfair", "frustrat", "outrage", "hate",
      "never", "demand", "disrespect", "!", "how dare"]
    let polite_indicators := ["please", "kindly", "thank", "appreciate"]
    let logical_indicators := ["market", "price", "cost", "margin", "percent",
      "%", "data", "analysis", "based on"]
    let score : ℤ := -2 * keywordHits t emotional
      + keywordHits t logical_indicators + keywordHits t polite_indicators
    if score ≤ -1 then "emotional"
    else if 1 ≤ score then "logical"
    else "neutral"

/-- Tactic selection of `personality_adaptation` from the classified tone. -/
def tone_tactic (tone : String) : String :=
  if tone = "emotional" then "logical"
  else if tone = "logical" then "appeal"
  else "logical"

/-- The `_seller_made_concession`: magnitude of a strict price decrease relative
to the last recorded seller price, if any. -/
def seller_made_concession (st : AgentState) (new_seller_price : ℤ) : Option ℤ :=
  match st.seller_history.getLast? with
  | none => none
  | some last => if new_seller_price < last then some (last - new_seller_price) else none

/-- The fixed escalating demand catalog of `_format_reciprocity_request`. -/
def demands : List String :=
  ["free delivery", "extended warranty (6 months)", "priority dispatch",
   "a small bulk discount on the next order", "payment terms (30 days)"]

/-- Demand index `min(len(demands) - 1, n - 1) if n > 0 else 0`. -/
def reciprocity_idx (n : ℕ) : ℕ :=
  if 0 < n then min (demands.length - 1) (n - 1) else 0

/-- The `_format_reciprocity_request`: the catalog entry at the reciprocity
index. -/
def format_reciprocity_request (n : ℕ) : String :=
  demands.getD (reciprocity_idx n) ""

/-- The `_extract_price`: rupee-marked group first (returning `None` when the
captured group contains no digit, as `int` raises there), else the first
standalone run of five or more digits. -/
def extract_price (text : String) : Option ℤ :=
  if text = "" then none
  else
    match findRupeeGroup text.toList with
    | some run =>
      let ds := run.filter (fun c => c.isDigit)
      if ds = [] then none else some (parseDigits ds)
    | none =>
      match findLongDigitRun text.toList with
      | some run => some (parseDigits run)
      | none => none

/-- The `_opening_offer_number`: lesser of 78 percent of budget and 72 percent of
market, floored at the minimum step 1000 after capping at the budget. -/
def opening_offer_number (ctx : NegotiationContext) : ℤ :=
  let market := ctx.product.base_market_price
  let budget := ctx.your_budget
  let opening := min (pydiv (78 * budget) 100) (pydiv (72 * market) 100)
  max 1000 (min opening budget)

/-- The `_walkaway_cap`: 96 percent of market capped at the budget. -/
def walkaway_cap (ctx : NegotiationContext) : ℤ :=
  min (pydiv (96 * ctx.product.base_market_price) 100) ctx.your_budget

/-- The `_update_seller_estimates`: append to history, update the running
minimum, and fold the 85 percent rough floor into the 0.6-decayed
estimate. -/
def update_seller_estimates (st : AgentState) (seller_price : ℤ) : AgentState :=
  let mss := match st.min_seller_seen with
    | none => seller_price
    | some m => min m seller_price
  let rough_floor := pydiv (85 * seller_price) 100
  let est := match st.seller_min_est with
    | none => rough_floor
    | some e => pydiv (6 * e + 4 * rough_floor) 10
  { st with
    seller_history := st.seller_history ++ [seller_price]
    min_seller_seen := some mss
    seller_min_est := some est }

/-- The `_closing_target_from_estimate`: from the running minimum alone (a
falsy running minimum, absent or zero, yields no target): 98 percent of the
minimum, marked up by the 1.10 seller margin, floored at 1000. -/
def closing_target_from_estimate (st : AgentState) : Option ℤ :=
  match st.min_seller_seen with
  | none => none
  | some m =>
    if m = 0 then none
    else
      let est_min_floor := pydiv (98 * m) 100
      let target := pydiv (110 * est_min_floor) 100
      some (max 1000 target)

/-- Lead phrases of `_format_professional`, chosen by `random.choice`. -/
def lead_phrases : List String :=
  ["For clarity:", "Let’s be direct:", "To be efficient:", "Straightforwardly:"]

/-- Tail phrases of `_format_professional`, chosen by `random.choice`. -/
def tail_phrases : List String :=
  ["Please confirm.", "I expect a prompt response.", "Proceed accordingly.",
   "This suits my thresholds."]

/-- The `_format_professional`: wrap the content between a random lead and a
random tail phrase; the random draws are modelled by the indices `rl rt`. -/
def format_professional (content : String) (rl rt : ℕ) : String :=
  lead_phrases.getD (rl % lead_phrases.length) "" ++ " " ++ content ++ " "
    ++ tail_phrases.getD (rt % tail_phrases.length) ""

/-- The observation block at the top of `respond_to_seller_offer`: on a
truthy observed price, detect a seller concession against the previous
history entry, update the estimates, and record the concession when
positive. -/
def observe (st : AgentState) (observed : Option ℤ) : AgentState :=
  match observed with
  | some v =>
    if v ≠ 0 then
      let seller_conc := if st.seller_history ≠ [] then seller_made_concession st v else none
      let st1 := update_seller_estimates st v
      match seller_conc with
      | some c => if c ≠ 0 ∧ 0 < c then record_concession st1 "seller" c else st1
      | none => st1
    else st
  | none => st

/-- The `dynamic_target` of the bargaining phase:
`int(opening + (walkaway - opening) * eased)` with the eased progress
modelled as `en / ed`; the integer `opening` commutes with the truncation. -/
def dynamic_target (ctx : NegotiationContext) (en ed : ℤ) : ℤ :=
  let opening := opening_offer_number ctx
  let walkaway := walkaway_cap ctx
  opening + pydiv ((walkaway - opening) * en) ed

/-- The round-nine-and-later last-shot branch: the better of budget and
walk-away cap, pulled down to `max(interview_threshold, closing_target)` when
a truthy closing target exists, with an escalated reciprocity demand. -/
def last_shot_reply (ctx : NegotiationContext) (st : AgentState)
    (closing_target : Option ℤ) : AgentState × DealStatus × ℤ × String :=
  let budget := ctx.your_budget
  let walkaway := walkaway_cap ctx
  let interview_threshold := pydiv (90 * budget) 100
  let last_shot0 := min budget walkaway
  let last_shot := match closing_target with
    | some c => if c ≠ 0 then min last_shot0 (max interview_threshold c) else last_shot0
    | none => last_shot0
  let demand := format_reciprocity_request st.concessions_buyer.length
  (st, DealStatus.ONGOING, last_shot,
    "Final offer ₹" ++ toString last_shot ++ ". In return I require: " ++ demand
      ++ ". Immediate confirmation concludes the deal.")

/-- The gap-driven counter branch of the bargaining phase.  The relative gap
`gap / max(1, last_my)` is compared with 0.18 and 0.07 by cross-multiplying
with the positive denominator, exactly; `int(max(step, gap * 0.45))` equals
`max step (pydiv (45 * gap) 100)` because `gap` is nonnegative. -/
def bargain_counter (ctx : NegotiationContext) (st : AgentState)
    (closing_target : Option ℤ) (p : ℤ) (tone_adapt : String) :
    AgentState × DealStatus × ℤ × String :=
  let market := ctx.product.base_market_price
  let budget := ctx.your_budget
  let opening := opening_offer_number ctx
  let walkaway := walkaway_cap ctx
  let last_my := ctx.your_offers.getLast?.getD opening
  let interview_threshold := pydiv (90 * budget) 100
  let r := max 1 (min 10 ctx.current_round)
  let gap := max 0 (p - last_my)
  let base_far := max 1000 (pydiv (6 * market) 100)
  let base_close := max 1000 (pydiv (2 * market) 100)
  let den := max 1 last_my
  let step0 :=
    if 18 * den < 100 * gap then base_far
    else if 7 * den < 100 * gap then pydiv (base_far + base_close) 2
    else base_close
  let step := if 5 < r then pydiv (3 * step0) 2 else step0
  let target_anchor : Option ℤ := match closing_target with
    | some c =>
      if c ≠ 0 then some (min (max interview_threshold c) (min walkaway budget))
      else none
    | none => none
  let proposed0 := match target_anchor with
    | some ta =>
      if ta ≠ 0 then last_my + max 1000 (max step (pydiv (ta - last_my) 2))
      else last_my + max 1000 (max step (pydiv (45 * gap) 100))
    | none => last_my + max 1000 (max step (pydiv (45 * gap) 100))
  let proposed1 := max proposed0 (max opening last_my)
  let proposed := min proposed1 (min budget walkaway)
  let st3 := if last_my < proposed then record_concession st "buyer" (proposed - last_my) else st
  let buyer_conc_count := st3.concessions_buyer.length
  let seller_conc_count := st3.concessions_seller.length
  let reciprocity_text :=
    if seller_conc_count < buyer_conc_count then
      " In return for this move I need: " ++ format_reciprocity_request buyer_conc_count ++ "."
    else ""
  let content :=
    if tone_adapt = "logical" then
      "My counter is ₹" ++ toString proposed
        ++ ". This reflects market structure, my ceiling, and time-to-agreement."
        ++ reciprocity_text
    else
      "My counter is ₹" ++ toString proposed
        ++ ". I prefer to work with you — if you can include "
        ++ format_reciprocity_request buyer_conc_count
        ++ ", we can close today." ++ " Let’s make this a lasting cooperation."
  (st3, DealStatus.ONGOING, proposed, content)

/-- The `respond_to_seller_offer` before the final message decoration: state
update, tone adaptation, immediate-acceptance tests, late-round
finalization, dynamic-target acceptance, and the counter branches, with the
early returns of the source linearized into nested conditionals. -/
def respond_content (ctx : NegotiationContext) (state0 : Option AgentState)
    (seller_price : Option ℤ) (seller_message : String) (en ed : ℤ) :
    AgentState × DealStatus × ℤ × String :=
  let st0 := init_state state0
  let observed : Option ℤ := match seller_price with
    | some p => some p
    | none => extract_price seller_message
  let st1 := observe st0 observed
  let tone := analyze_seller_tone seller_message
  let tone_adapt := tone_tactic tone
  let st2 := { st1 with last_seller_tone := tone }
  let market := ctx.product.base_market_price
  let budget := ctx.your_budget
  let walkaway := walkaway_cap ctx
  let interview_threshold := pydiv (90 * budget) 100
  let market_floor_proxy := pydiv (82 * market) 100
  let closing_target : Option ℤ := match closing_target_from_estimate st2 with
    | some c => some (min c (min walkaway budget))
    | none => none
  match seller_price with
  | some p =>
    if p ≤ min interview_threshold walkaway then
      (st2, DealStatus.ACCEPTED, p,
        "I accept ₹" ++ toString p ++ ". It meets my efficiency threshold.")
    else if p ≤ min walkaway market_floor_proxy ∧ p ≤ budget then
      (st2, DealStatus.ACCEPTED, p,
        "I accept ₹" ++ toString p ++ ". This aligns with my market-floor analysis.")
    else if 9 ≤ ctx.current_round then
      if p ≤ budget then
        (st2, DealStatus.ACCEPTED, p, "Finalizing at ₹" ++ toString p ++ ".")
      else last_shot_reply ctx st2 closing_target
    else if p ≤ min (dynamic_target ctx en ed) budget then
      (st2, DealStatus.ACCEPTED, p, "Agreed at ₹" ++ toString p ++ ". Efficient resolution.")
    else bargain_counter ctx st2 closing_target p tone_adapt
  | none =>
    if 9 ≤ ctx.current_round then last_shot_reply ctx st2 closing_target
    else
      let opening := opening_offer_number ctx
      let last_my := ctx.your_offers.getLast?.getD opening
      let proposed := min budget (max opening (pydiv (108 * last_my) 100))
      (st2, DealStatus.ONGOING, proposed,
        "My counter is ₹" ++ toString proposed ++ ". Provide a numeric offer to proceed.")

/-- The `respond_to_seller_offer`: the content branch, with the returned message
wrapped by `_format_professional` (every return of the source wraps its
message exactly once). -/
def respond_to_seller_offer (ctx : NegotiationContext) (state0 : Option AgentState)
    (seller_price : Option ℤ) (seller_message : String) (en ed : ℤ) (rl rt : ℕ) :
    AgentState × DealStatus × ℤ × String :=
  let out := respond_content ctx state0 seller_price seller_message en ed
  (out.1, out.2.1, out.2.2.1, format_professional out.2.2.2 rl rt)

/-- The `generate_opening_offer`: the opening number, a product-describing
message, and the initial buyer-ledger entry. -/
def generate_opening_offer (ctx : NegotiationContext) (state0 : Option AgentState)
    (rl rt : ℕ) : AgentState × ℤ × String :=
  let st := init_state state0
  let offer := opening_offer_number ctx
  let content := "My opening is ₹" ++ toString offer ++ " for "
    ++ toString ctx.product.quantity ++ " units of " ++ ctx.product.quality_grade
    ++ "-grade " ++ ctx.product.name ++ "."
  (record_concession st "buyer" offer, offer, format_professional content rl rt)

end YourBuyerAgent

namespace YourSellerAgent

/-- The lazily created `self._state` dict of `YourSellerAgent`: counterpart
offer history, running maximum, decayed ceiling estimate, the concession
ledger keyed by actor, and the last observed tone. -/
structure AgentState where
  buyer_history : List ℤ
  max_buyer_seen : Option ℤ
  buyer_max_est : Option ℤ
  concessions_buyer : List ℤ
  concessions_seller : List ℤ
  last_buyer_tone : String
deriving DecidableEq, Repr

/-- The fresh state built by `_init_state` on first use. -/
def initial_state : AgentState :=
  { buyer_history := []
    max_buyer_seen := none
    buyer_max_est := none
    concessions_buyer := []
    concessions_seller := []
    last_buyer_tone := "neutral" }

/-- The `_init_state`: the `hasattr` guard keeps an existing state and creates
the fresh one only when none exists yet. -/
def init_state (s : Option AgentState) : AgentState := s.getD initial_state

/-- The `_record_concession(actor, amount)`: append to the ledger list of the
given actor. -/
def record_concession (st : AgentState) (actor : String) (amount : ℤ) : AgentState :=
  if actor = "buyer" then
    { st with concessions_buyer := st.concessions_buyer ++ [amount] }
  else if actor = "seller" then
    { st with concessions_seller := st.concessions_seller ++ [amount] }
  else st

/-- The `analyze_buyer_tone`: keyword scoring with the seller keyword sets. -/
def analyze_buyer_tone (text : String) : String :=
  if text = "" then "neutral"
  else
    let t := lowerChars text
    let emotional := ["angry", "unfair", "frustrat", "demand", "unacceptable", "!", "urgent"]
    let logical := ["market", "budget", "price", "analysis", "cost", "%", "data"]
    let polite := ["please", "thank", "appreciate"]
    let score : ℤ := -2 * keywordHits t emotional + keywordHits t logical + keywordHits t polite
    if score ≤ -1 then "emotional"
    else if 1 ≤ score then "logical"
    else "neutral"

/-- Tactic selection of `personality_adaptation` from the classified tone. -/
def tone_tactic (tone : String) : String :=
  if tone = "emotional" then "logical"
  else if tone = "logical" then "appeal"
  else "logical"

/-- The `_buyer_made_concession`: magnitude of a strict price increase relative
to the last recorded buyer price, if any. -/
def buyer_made_concession (st : AgentState) (new_buyer_price : ℤ) : Option ℤ :=
  match st.buyer_history.getLast? with
  | none => none
  | some last => if last < new_buyer_price then some (new_buyer_price - last) else none

/-- The fixed escalating demand catalog of `_format_reciprocity_request`. -/
def demands : List String :=
  ["commitment to higher volume", "faster payment terms", "exclusive supplier status",
   "priority contract renewal", "multi-order agreement"]

/-- Demand index `min(len(demands) - 1, n - 1) if n > 0 else 0`. -/
def reciprocity_idx (n : ℕ) : ℕ :=
  if 0 < n then min (demands.length - 1) (n - 1) else 0

/-- The `_format_reciprocity_request`: the catalog entry at the reciprocity
index. -/
def format_reciprocity_request (n : ℕ) : String :=
  demands.getD (reciprocity_idx n) ""

/-- The `_opening_offer_number`: 125 percent of market, raised to at least 115
percent of market. -/
def opening_offer_number (ctx : NegotiationContext) : ℤ :=
  let market := ctx.product.base_market_price
  let opening := pydiv (125 * market) 100
  max opening (pydiv (115 * market) 100)

/-- The `_walkaway_floor`: 90 percent of market. -/
def walkaway_floor (ctx : NegotiationContext) : ℤ :=
  pydiv (90 * ctx.product.base_market_price) 100

/-- The `_update_buyer_estimates`: append to history, update the running
maximum, and fold the 110 percent rough cap into the 0.6-decayed
estimate. -/
def update_buyer_estimates (st : AgentState) (buyer_price : ℤ) : AgentState :=
  let mbs := match st.max_buyer_seen with
    | none => buyer_price
    | some m => max m buyer_price
  let rough_cap := pydiv (110 * buyer_price) 100
  let est := match st.buyer_max_est with
    | none => rough_cap
    | some e => pydiv (6 * e + 4 * rough_cap) 10
  { st with
    buyer_history := st.buyer_history ++ [buyer_price]
    max_buyer_seen := some mbs
    buyer_max_est := some est }

/-- The `_closing_target_from_estimate`: from the running maximum alone (a
falsy running maximum, absent or zero, yields no target): 102 percent of the
maximum. -/
def closing_target_from_estimate (st : AgentState) : Option ℤ :=
  match st.max_buyer_seen with
  | none => none
  | some m => if m = 0 then none else some (pydiv (102 * m) 100)

/-- Lead phrases of `_format_professional`, chosen by `random.choice`. -/
def lead_phrases : List String :=
  ["Professionally:", "Let’s be clear:", "For efficiency:", "Directly:"]

/-- Tail phrases of `_format_professional`, chosen by `random.choice`. -/
def tail_phrases : List String :=
  ["Confirm at your earliest.", "I expect reciprocity.", "Proceed accordingly.",
   "This is sustainable."]

/-- The `_format_professional`: wrap the content between a random lead and a
random tail phrase; the random draws are modelled by the indices `rl rt`. -/
def format_professional (content : String) (rl rt : ℕ) : String :=
  lead_phrases.getD (rl % lead_phrases.length) "" ++ " " ++ content ++ " "
    ++ tail_phrases.getD (rt % tail_phrases.length) ""

/-- The observation block at the top of `respond_to_seller_offer`: on a
truthy buyer price (`if buyer_price:`), detect a buyer concession against
the previous history entry, update the estimates, and record the concession
when positive. -/
def observe (st : AgentState) (buyer_price : Option ℤ) : AgentState :=
  match buyer_price with
  | some v =>
    if v ≠ 0 then
      let buyer_conc := if st.buyer_history ≠ [] then buyer_made_concession st v else none
      let st1 := update_buyer_estimates st v
      match buyer_conc with
      | some c => if c ≠ 0 ∧ 0 < c then record_concession st1 "buyer" c else st1
      | none => st1
    else st
  | none => st

/-- The `dynamic_target` of the bargaining phase:
`int(opening - (opening - floor) * eased)` with the eased progress modelled
as `en / ed`; the integer `opening` commutes with the truncation. -/
def dynamic_target (ctx : NegotiationContext) (en ed : ℤ) : ℤ :=
  let opening := opening_offer_number ctx
  let floor := walkaway_floor ctx
  opening - pydiv ((opening - floor) * en) ed

/-- The round-nine-and-later last-shot branch: the better of floor and
market, raised to a truthy closing target when one exists, with a
reciprocity demand indexed by the seller concession count. -/
def last_shot_reply (ctx : NegotiationContext) (st : AgentState)
    (closing_target : Option ℤ) : AgentState × DealStatus × ℤ × String :=
  let market := ctx.product.base_market_price
  let floor := walkaway_floor ctx
  let last_shot0 := max floor market
  let last_shot := match closing_target with
    | some c => if c ≠ 0 then max last_shot0 c else last_shot0
    | none => last_shot0
  let demand := format_reciprocity_request st.concessions_seller.length
  (st, DealStatus.ONGOING, last_shot,
    "Final offer ₹" ++ toString last_shot ++ ". In return I require: " ++ demand
      ++ ". Immediate confirmation secures the deal.")

/-- The counter branch of the bargaining phase.  The source computes the
gap `last_my - buyer_price` here but never uses it; the step is the flat
`int(max(1000, market * 0.05))`, accelerated by 1.5 after round five. -/
def bargain_counter (ctx : NegotiationContext) (st : AgentState)
    (buyer_price : Option ℤ) (tone_adapt : String) :
    AgentState × DealStatus × ℤ × String :=
  let market := ctx.product.base_market_price
  let opening := opening_offer_number ctx
  let floor := walkaway_floor ctx
  let last_my := ctx.your_offers.getLast?.getD opening
  let _gap := match buyer_price with
    | some p => if p ≠ 0 then last_my - p else 0
    | none => 0
  let r := max 1 (min 10 ctx.current_round)
  let step0 := max 1000 (pydiv (5 * market) 100)
  let step := if 5 < r then pydiv (3 * step0) 2 else step0
  let proposed := max (last_my - step) floor
  let st3 := if proposed < last_my then record_concession st "seller" (last_my - proposed) else st
  let buyer_conc_count := st3.concessions_buyer.length
  let seller_conc_count := st3.concessions_seller.length
  let reciprocity_text :=
    if buyer_conc_count < seller_conc_count then
      " In return I require: " ++ format_reciprocity_request seller_conc_count ++ "."
    else ""
  let content :=
    if tone_adapt = "logical" then
      "My counter is ₹" ++ toString proposed
        ++ ". This reflects market floor and sustainable pricing." ++ reciprocity_text
    else
      "My counter is ₹" ++ toString proposed
        ++ ". I’d prefer to continue this partnership — include "
        ++ format_reciprocity_request seller_conc_count ++ ", and we close today."
  (st3, DealStatus.ONGOING, proposed, content)

/-- The `respond_to_seller_offer` of the seller agent before the final message
decoration: state update on a truthy buyer price, tone adaptation,
late-round finalization, dynamic-target acceptance, and the flat-step
counter, with the early returns of the source linearized. -/
def respond_content (ctx : NegotiationContext) (state0 : Option AgentState)
    (buyer_price : Option ℤ) (buyer_message : String) (en ed : ℤ) :
    AgentState × DealStatus × ℤ × String :=
  let st0 := init_state state0
  let st1 := observe st0 buyer_price
  let tone := analyze_buyer_tone buyer_message
  let tone_adapt := tone_tactic tone
  let st2 := { st1 with last_buyer_tone := tone }
  let floor := walkaway_floor ctx
  let closing_target : Option ℤ := match closing_target_from_estimate st2 with
    | some c => some (max c floor)
    | none => none
  if 9 ≤ ctx.current_round then
    match buyer_price with
    | some p =>
      if p ≠ 0 ∧ floor ≤ p then
        (st2, DealStatus.ACCEPTED, p, "Finalizing at ₹" ++ toString p ++ ".")
      else last_shot_reply ctx st2 closing_target
    | none => last_shot_reply ctx st2 closing_target
  else
    match buyer_price with
    | some p =>
      if p ≠ 0 ∧ dynamic_target ctx en ed ≤ p then
        (st2, DealStatus.ACCEPTED, p, "Agreed at ₹" ++ toString p ++ ". Efficient resolution.")
      else bargain_counter ctx st2 buyer_price tone_adapt
    | none => bargain_counter ctx st2 buyer_price tone_adapt

/-- The `respond_to_seller_offer` of the seller agent: the content branch, with
the returned message wrapped by `_format_professional` (every return of the
source wraps its message exactly once). -/
def respond_to_seller_offer (ctx : NegotiationContext) (state0 : Option AgentState)
    (buyer_price : Option ℤ) (buyer_message : String) (en ed : ℤ) (rl rt : ℕ) :
    AgentState × DealStatus × ℤ × String :=
  let out := respond_content ctx state0 buyer_price buyer_message en ed
  (out.1, out.2.1, out.2.2.1, format_professional out.2.2.2 rl rt)

/-- The `generate_opening_offer` of the seller agent: the opening number, a
product-describing message, and a zero seller-ledger entry. -/
def generate_opening_offer (ctx : NegotiationContext) (state0 : Option AgentState)
    (rl rt : ℕ) : AgentState × ℤ × String :=
  let st := init_state state0
  let offer := opening_offer_number ctx
  let content := "My opening is ₹" ++ toString offer ++ " for "
    ++ toString ctx.product.quantity ++ " units of " ++ ctx.product.quality_grade
    ++ "-grade " ++ ctx.product.name ++ "."
  (record_concession st "seller" 0, offer, format_professional content rl rt)

end YourSellerAgent

/-! ## Helper lemmas -/

lemma pydiv_mul_le_self (x en ed : ℤ) (hx : 0 ≤ x)
    (hed : en ≤ ed) (hpos : 0 < ed) : pydiv (x * en) ed ≤ x := by
  simp only [pydiv]
  have h1 : x * en ≤ x * ed := mul_le_mul_of_nonneg_left hed hx
  split_ifs with h0
  · calc x * en / ed ≤ x * ed / ed := Int.ediv_le_ediv hpos h1
    _ = x := Int.mul_ediv_cancel x (by omega)
  · have : 0 ≤ -(x * en) / ed := Int.ediv_nonneg (by omega) (by omega)
    omega

lemma buyer_last_shot_status (ctx : NegotiationContext) (st : YourBuyerAgent.AgentState)
    (ct : Option ℤ) :
    (YourBuyerAgent.last_shot_reply ctx st ct).2.1 = DealStatus.ONGOING := rfl

lemma buyer_counter_status (ctx : NegotiationContext) (st : YourBuyerAgent.AgentState)
    (ct : Option ℤ) (p : ℤ) (t : String) :
    (YourBuyerAgent.bargain_counter ctx st ct p t).2.1 = DealStatus.ONGOING := rfl

lemma seller_last_shot_status (ctx : NegotiationContext) (st : YourSellerAgent.AgentState)
    (ct : Option ℤ) :
    (YourSellerAgent.last_shot_reply ctx st ct).2.1 = DealStatus.ONGOING := rfl

lemma seller_counter_status (ctx : NegotiationContext) (st : YourSellerAgent.AgentState)
    (bp : Option ℤ) (t : String) :
    (YourSellerAgent.bargain_counter ctx st bp t).2.1 = DealStatus.ONGOING := rfl

lemma buyer_status_cases (ctx : NegotiationContext) (st0 : Option YourBuyerAgent.AgentState)
    (sp : Option ℤ) (msg : String) (en ed : ℤ) :
    (YourBuyerAgent.respond_content ctx st0 sp msg en ed).2.1 = DealStatus.ONGOING
    ∨ (YourBuyerAgent.respond_content ctx st0 sp msg en ed).2.1 = DealStatus.ACCEPTED := by
  unfold YourBuyerAgent.respond_content
  rcases sp with _ | p
  · simp only
    split_ifs
    · exact Or.inl (buyer_last_shot_status ..)
    · exact Or.inl rfl
  · simp only
    split_ifs
    · exact Or.inr rfl
    · exact Or.inr rfl
    · exact Or.inr rfl
    · exact Or.inl (buyer_last_shot_status ..)
    · exact Or.inr rfl
    · exact Or.inl (buyer_counter_status ..)

lemma seller_status_cases (ctx : NegotiationContext) (st0 : Option YourSellerAgent.AgentState)
    (bp : Option ℤ) (msg : String) (en ed : ℤ) :
    (YourSellerAgent.respond_content ctx st0 bp msg en ed).2.1 = DealStatus.ONGOING
    ∨ (YourSellerAgent.respond_content ctx st0 bp msg en ed).2.1 = DealStatus.ACCEPTED := by
  unfold YourSellerAgent.respond_content
  rcases bp with _ | p
  · simp only
    split_ifs
    · exact Or.inl (seller_last_shot_status ..)
    · exact Or.inl (seller_counter_status ..)
  · simp only
    split_ifs
    · exact Or.inr rfl
    · exact Or.inl (seller_last_shot_status ..)
    · exact Or.inr rfl
    · exact Or.inl (seller_counter_status ..)

/-! ## C7 -/

/-- C7: for every input (any context, any counterpart price including
absent, any message text), each per-round agent call returns (totally, as a
Lean function) a decision whose status is `ONGOING` or `ACCEPTED`; the core
never returns `REJECTED` or `TIMEOUT`. -/
theorem core_status_in_ongoing_accepted (ctx ctx' : NegotiationContext)
    (bst : Option YourBuyerAgent.AgentState) (sst : Option YourSellerAgent.AgentState)
    (sp bp : Option ℤ) (msgB msgS : String) (en ed : ℤ) (rl rt : ℕ) :
    ((YourBuyerAgent.respond_to_seller_offer ctx bst sp msgB en ed rl rt).2.1 = DealStatus.ONGOING
      ∨ (YourBuyerAgent.respond_to_seller_offer ctx bst sp msgB en ed rl rt).2.1 = DealStatus.ACCEPTED)
    ∧ ((YourSellerAgent.respond_to_seller_offer ctx' sst bp msgS en ed rl rt).2.1 = DealStatus.ONGOING
      ∨ (YourSellerAgent.respond_to_seller_offer ctx' sst bp msgS en ed rl rt).2.1 = DealStatus.ACCEPTED) :=
  ⟨buyer_status_cases ctx bst sp msgB en ed, seller_status_cases ctx' sst bp msgS en ed⟩

/-! ## C9 -/

/-- C9: two runs of the same per-round call on identical inputs and state
that differ only in the random phrase-decoration choices return the same
status, the same price, and the same updated state; the bounded
non-deterministic selection affects only the message text. -/
theorem randomness_price_independent (ctx ctx' : NegotiationContext)
    (bst : Option YourBuyerAgent.AgentState) (sst : Option YourSellerAgent.AgentState)
    (sp bp : Option ℤ) (msgB msgS : String) (en ed : ℤ) (rl rt rl' rt' : ℕ) :
    ((YourBuyerAgent.respond_to_seller_offer ctx bst sp msgB en ed rl rt).1
        = (YourBuyerAgent.respond_to_seller_offer ctx bst sp msgB en ed rl' rt').1
      ∧ (YourBuyerAgent.respond_to_seller_offer ctx bst sp msgB en ed rl rt).2.1
        = (YourBuyerAgent.respond_to_seller_offer ctx bst sp msgB en ed rl' rt').2.1
      ∧ (YourBuyerAgent.respond_to_seller_offer ctx bst sp msgB en ed rl rt).2.2.1
        = (YourBuyerAgent.respond_to_seller_offer ctx bst sp msgB en ed rl' rt').2.2.1)
    ∧ ((YourSellerAgent.respond_to_seller_offer ctx' sst bp msgS en ed rl rt).1
        = (YourSellerAgent.respond_to_seller_offer ctx' sst bp msgS en ed rl' rt').1
      ∧ (YourSellerAgent.respond_to_seller_offer ctx' sst bp msgS en ed rl rt).2.1
        = (YourSellerAgent.respond_to_seller_offer ctx' sst bp msgS en ed rl' rt').2.1
      ∧ (YourSellerAgent.respond_to_seller_offer ctx' sst bp msgS en ed rl rt).2.2.1
        = (YourSellerAgent.respond_to_seller_offer ctx' sst bp msgS en ed rl' rt').2.2.1) :=
  ⟨⟨rfl, rfl, rfl⟩, ⟨rfl, rfl, rfl⟩⟩

/-! ## C8 -/

/-- C8: whenever the buyer concession count exceeds the seller count (the
guard of the reciprocity branch), the count is positive, so the demand
index is `min(catalog_length - 1, n - 1)` and the `n = 0` fallback is not
taken; the index is zero at zero, non-decreasing in the count, and always a
valid index into the five-element catalog. -/
theorem reciprocity_index_spec (b s : ℕ) (hgt : s < b) :
    YourBuyerAgent.reciprocity_idx b = min (YourBuyerAgent.demands.length - 1) (b - 1)
    ∧ YourBuyerAgent.reciprocity_idx 0 = 0
    ∧ (∀ n m : ℕ, n ≤ m →
        YourBuyerAgent.reciprocity_idx n ≤ YourBuyerAgent.reciprocity_idx m)
    ∧ (∀ n : ℕ, YourBuyerAgent.reciprocity_idx n < YourBuyerAgent.demands.length) := by
  refine ⟨?_, rfl, ?_, ?_⟩
  · unfold YourBuyerAgent.reciprocity_idx
    rw [if_pos (by omega)]
  · intro n m hnm
    unfold YourBuyerAgent.reciprocity_idx
    simp only [YourBuyerAgent.demands, List.length]
    split_ifs <;> omega
  · intro n
    unfold YourBuyerAgent.reciprocity_idx
    simp only [YourBuyerAgent.demands, List.length]
    split_ifs <;> omega

/-- Witness for C8 at concession counts 3 (own) versus 1 (counterpart). -/
theorem reciprocity_index_spec_witness :
    YourBuyerAgent.reciprocity_idx 3 = min (YourBuyerAgent.demands.length - 1) (3 - 1) :=
  (reciprocity_index_spec 3 1 (by omega)).1

/-! ## C10 -/

/-- C10: the seller treats a buyer price equal to zero exactly as an absent
price: the whole per-round result (updated state, status, price, message)
is the same as with no price; and the buyer closing target is absent
whenever the running minimum seller price seen equals zero, by the
truthiness tests of the source. -/
theorem zero_price_treated_as_absent (ctx : NegotiationContext)
    (sst : Option YourSellerAgent.AgentState) (msg : String) (en ed : ℤ) (rl rt : ℕ)
    (bst : YourBuyerAgent.AgentState) (h0 : bst.min_seller_seen = some 0) :
    YourSellerAgent.respond_to_seller_offer ctx sst (some 0) msg en ed rl rt
      = YourSellerAgent.respond_to_seller_offer ctx sst none msg en ed rl rt
    ∧ YourBuyerAgent.closing_target_from_estimate bst = none := by
  constructor
  · rfl
  · simp [YourBuyerAgent.closing_target_from_estimate, h0]

/-- Witness for C10 at a concrete buyer state whose running minimum is
zero. -/
theorem zero_price_treated_as_absent_witness :
    YourBuyerAgent.closing_target_from_estimate
      { YourBuyerAgent.initial_state with min_seller_seen := some 0 } = none :=
  (zero_price_treated_as_absent
    ⟨⟨"m", "m", 1, "A", "o", 100000, []⟩, 100000, 3, [], [], []⟩
    none "" 0 1 0 0
    { YourBuyerAgent.initial_state with min_seller_seen := some 0 } rfl).2

/-! ## C2 -/

/-- C2: whenever the counterpart price satisfies the acceptance threshold
of the current round — for the buyer one of the two immediate-acceptance
conditions, the finalizing within-budget check, or the dynamic target; for
the seller the finalizing at-or-above-floor check or the dynamic target —
the agent returns status `ACCEPTED` together with exactly that counterpart
price.  A zero counterpart price is excluded for the seller, which treats
it as absent. -/
theorem threshold_acceptance_exact
    (ctx ctx' : NegotiationContext) (bst : Option YourBuyerAgent.AgentState)
    (sst : Option YourSellerAgent.AgentState) (p q : ℤ) (msgB msgS : String)
    (en ed : ℤ) (rl rt : ℕ)
    (hb : p ≤ min (pydiv (90 * ctx.your_budget) 100) (YourBuyerAgent.walkaway_cap ctx)
        ∨ (p ≤ min (YourBuyerAgent.walkaway_cap ctx)
              (pydiv (82 * ctx.product.base_market_price) 100)
            ∧ p ≤ ctx.your_budget)
        ∨ (9 ≤ ctx.current_round ∧ p ≤ ctx.your_budget)
        ∨ (ctx.current_round < 9
            ∧ p ≤ min (YourBuyerAgent.dynamic_target ctx en ed) ctx.your_budget))
    (hq : q ≠ 0)
    (hs : (9 ≤ ctx'.current_round ∧ YourSellerAgent.walkaway_floor ctx' ≤ q)
        ∨ (ctx'.current_round < 9 ∧ YourSellerAgent.dynamic_target ctx' en ed ≤ q)) :
    ((YourBuyerAgent.respond_to_seller_offer ctx bst (some p) msgB en ed rl rt).2.1
        = DealStatus.ACCEPTED
      ∧ (YourBuyerAgent.respond_to_seller_offer ctx bst (some p) msgB en ed rl rt).2.2.1 = p)
    ∧ ((YourSellerAgent.respond_to_seller_offer ctx' sst (some q) msgS en ed rl rt).2.1
        = DealStatus.ACCEPTED
      ∧ (YourSellerAgent.respond_to_seller_offer ctx' sst (some q) msgS en ed rl rt).2.2.1 = q) := by
  constructor
  · unfold YourBuyerAgent.respond_to_seller_offer YourBuyerAgent.respond_content
    simp only
    split_ifs <;> first
      | exact ⟨rfl, rfl⟩
      | (exfalso; rcases hb with hb | hb | hb | hb <;> omega)
  · unfold YourSellerAgent.respond_to_seller_offer YourSellerAgent.respond_content
    simp only
    split_ifs <;> first
      | exact ⟨rfl, rfl⟩
      | (exfalso; rcases hs with hs | hs <;> omega)

/-- Concrete product shared by the witness scenarios below: market price
180000, as in the test harness of the source. -/
def wProduct : Product :=
  { name := "Alphonso Mangoes"
    category := "Mangoes"
    quantity := 100
    quality_grade := "A"
    origin := "Ratnagiri"
    base_market_price := 180000
    attributes := [] }

/-- Bargaining-round context for a buyer with budget 200000. -/
def wCtxBuyer : NegotiationContext :=
  { product := wProduct
    your_budget := 200000
    current_round := 3
    seller_offers := []
    your_offers := [150000]
    messages := [] }

/-- Bargaining-round context for a seller whose last own offer is its
opening 225000. -/
def wCtxSeller : NegotiationContext :=
  { product := wProduct
    your_budget := 200000
    current_round := 3
    seller_offers := []
    your_offers := [225000]
    messages := [] }

/-- Witness for C2: the buyer accepts 100000 (below its immediate
threshold) and the seller accepts 230000 (above its round-3 dynamic target
for eased progress 0). -/
theorem threshold_acceptance_exact_witness :
    ((YourBuyerAgent.respond_to_seller_offer wCtxBuyer none (some 100000) "" 0 1 0 0).2.1
        = DealStatus.ACCEPTED
      ∧ (YourBuyerAgent.respond_to_seller_offer wCtxBuyer none (some 100000) "" 0 1 0 0).2.2.1
        = 100000)
    ∧ ((YourSellerAgent.respond_to_seller_offer wCtxSeller none (some 230000) "" 0 1 0 0).2.1
        = DealStatus.ACCEPTED
      ∧ (YourSellerAgent.respond_to_seller_offer wCtxSeller none (some 230000) "" 0 1 0 0).2.2.1
        = 230000) :=
  threshold_acceptance_exact wCtxBuyer wCtxSeller none none 100000 230000 "" "" 0 1 0 0
    (Or.inl (by decide)) (by decide) (Or.inr ⟨by decide, by decide⟩)

/-! ## C1 -/

lemma buyer_last_shot_price_le (ctx : NegotiationContext) (st : YourBuyerAgent.AgentState)
    (ct : Option ℤ) :
    (YourBuyerAgent.last_shot_reply ctx st ct).2.2.1
      ≤ min ctx.your_budget (YourBuyerAgent.walkaway_cap ctx) := by
  unfold YourBuyerAgent.last_shot_reply
  rcases ct with _ | c
  · simp only
    omega
  · simp only
    split_ifs <;> omega

lemma buyer_counter_price_bounds (ctx : NegotiationContext) (st : YourBuyerAgent.AgentState)
    (ct : Option ℤ) (p : ℤ) (t : String) :
    (YourBuyerAgent.bargain_counter ctx st ct p t).2.2.1
      ≤ min ctx.your_budget (YourBuyerAgent.walkaway_cap ctx)
    ∧ (ctx.your_offers.getLast?.getD (YourBuyerAgent.opening_offer_number ctx)
          ≤ ctx.your_budget →
        ctx.your_offers.getLast?.getD (YourBuyerAgent.opening_offer_number ctx)
          ≤ YourBuyerAgent.walkaway_cap ctx →
        ctx.your_offers.getLast?.getD (YourBuyerAgent.opening_offer_number ctx)
          ≤ (YourBuyerAgent.bargain_counter ctx st ct p t).2.2.1) := by
  unfold YourBuyerAgent.bargain_counter
  simp only
  constructor
  · omega
  · intro h1 h2
    omega

lemma seller_last_shot_price_ge (ctx : NegotiationContext) (st : YourSellerAgent.AgentState)
    (ct : Option ℤ) :
    YourSellerAgent.walkaway_floor ctx ≤ (YourSellerAgent.last_shot_reply ctx st ct).2.2.1 := by
  unfold YourSellerAgent.last_shot_reply
  rcases ct with _ | c
  · simp only
    omega
  · simp only
    split_ifs <;> omega

lemma seller_counter_price_ge (ctx : NegotiationContext) (st : YourSellerAgent.AgentState)
    (bp : Option ℤ) (t : String) :
    YourSellerAgent.walkaway_floor ctx ≤ (YourSellerAgent.bargain_counter ctx st bp t).2.2.1 := by
  unfold YourSellerAgent.bargain_counter
  simp only
  omega

lemma seller_floor_le_opening (ctx : NegotiationContext)
    (hm : 0 ≤ ctx.product.base_market_price) :
    YourSellerAgent.walkaway_floor ctx ≤ YourSellerAgent.opening_offer_number ctx := by
  unfold YourSellerAgent.walkaway_floor YourSellerAgent.opening_offer_number pydiv
  simp only
  split_ifs <;> omega

lemma seller_floor_le_dynamic_target (ctx : NegotiationContext) (en ed : ℤ)
    (hm : 0 ≤ ctx.product.base_market_price) (hed : en ≤ ed) (hpos : 0 < ed) :
    YourSellerAgent.walkaway_floor ctx ≤ YourSellerAgent.dynamic_target ctx en ed := by
  have h1 := seller_floor_le_opening ctx hm
  have h2 := pydiv_mul_le_self
    (YourSellerAgent.opening_offer_number ctx - YourSellerAgent.walkaway_floor ctx)
    en ed (by omega) hed hpos
  unfold YourSellerAgent.dynamic_target
  simp only
  omega

lemma pydiv_ninety_le (b : ℤ) (hb : 0 ≤ b) : pydiv (90 * b) 100 ≤ b := by
  unfold pydiv
  split_ifs <;> omega

lemma buyer_respond_price_le_budget (ctx : NegotiationContext)
    (bst : Option YourBuyerAgent.AgentState) (sp : Option ℤ) (msg : String) (en ed : ℤ)
    (hb : 0 ≤ ctx.your_budget) :
    (YourBuyerAgent.respond_content ctx bst sp msg en ed).2.2.1 ≤ ctx.your_budget := by
  have hiv := pydiv_ninety_le ctx.your_budget hb
  unfold YourBuyerAgent.respond_content
  rcases sp with _ | p
  · simp only
    split_ifs
    · exact le_trans (buyer_last_shot_price_le _ _ _) (min_le_left _ _)
    · dsimp only
      omega
  · simp only
    split_ifs
    · dsimp only
      omega
    · dsimp only
      omega
    · dsimp only
      omega
    · exact le_trans (buyer_last_shot_price_le _ _ _) (min_le_left _ _)
    · dsimp only
      omega
    · exact le_trans (buyer_counter_price_bounds _ _ _ _ _).1 (min_le_left _ _)

lemma seller_respond_price_ge_floor (ctx : NegotiationContext)
    (sst : Option YourSellerAgent.AgentState) (bp : Option ℤ) (msg : String) (en ed : ℤ)
    (hm : 0 ≤ ctx.product.base_market_price) (hed : en ≤ ed) (hpos : 0 < ed) :
    YourSellerAgent.walkaway_floor ctx
      ≤ (YourSellerAgent.respond_content ctx sst bp msg en ed).2.2.1 := by
  have hdyn := seller_floor_le_dynamic_target ctx en ed hm hed hpos
  unfold YourSellerAgent.respond_content
  rcases bp with _ | p
  · simp only
    split_ifs
    · exact seller_last_shot_price_ge ctx _ _
    · exact seller_counter_price_ge ctx _ _ _
  · simp only
    split_ifs
    · dsimp only
      omega
    · exact seller_last_shot_price_ge ctx _ _
    · dsimp only
      omega
    · exact seller_counter_price_ge ctx _ _ _

/-- C1 as stated is refuted by a budget below the minimum step 1000: the
opening offer is floored at 1000 only after capping at the budget, so with
budget 500 the buyer opens at 1000, above its budget. -/
def ctxTiny : NegotiationContext :=
  { product := wProduct
    your_budget := 500
    current_round := 1
    seller_offers := []
    your_offers := []
    messages := [] }

/-- Counterexample to C1 as stated: with budget 500 the buyer opening offer
is 1000, which exceeds the budget. -/
theorem hard_budget_floor_counterexample :
    ctxTiny.your_budget < (YourBuyerAgent.generate_opening_offer ctxTiny none 0 0).2.1
    ∧ (YourBuyerAgent.generate_opening_offer ctxTiny none 0 0).2.1 = 1000 := by
  constructor <;> decide

/-- C1 amended: provided the buyer budget is at least the minimum step 1000
(the opening is floored at 1000 after the budget cap, so smaller budgets
are exceeded) and the market price is nonnegative (the data model declares
it positive), every price returned by the buyer — opening offer, immediate
or dynamic acceptance, finalizing last shot, and bargaining counter — is at
most the budget, and every price returned by the seller is at least the
walk-away floor of 90 percent of market. -/
theorem hard_budget_floor_invariant
    (ctx ctx' : NegotiationContext) (bst : Option YourBuyerAgent.AgentState)
    (sst : Option YourSellerAgent.AgentState) (sp bp : Option ℤ)
    (msgB msgS : String) (en ed : ℤ) (rl rt : ℕ)
    (hbud : 1000 ≤ ctx.your_budget)
    (hm : 0 ≤ ctx'.product.base_market_price)
    (hed : en ≤ ed) (hpos : 0 < ed) :
    (YourBuyerAgent.generate_opening_offer ctx bst rl rt).2.1 ≤ ctx.your_budget
    ∧ (YourBuyerAgent.respond_to_seller_offer ctx bst sp msgB en ed rl rt).2.2.1
        ≤ ctx.your_budget
    ∧ YourSellerAgent.walkaway_floor ctx'
        ≤ (YourSellerAgent.generate_opening_offer ctx' sst rl rt).2.1
    ∧ YourSellerAgent.walkaway_floor ctx'
        ≤ (YourSellerAgent.respond_to_seller_offer ctx' sst bp msgS en ed rl rt).2.2.1 := by
  refine ⟨?_, ?_, ?_, ?_⟩
  · unfold YourBuyerAgent.generate_opening_offer YourBuyerAgent.opening_offer_number pydiv
    simp only
    split_ifs <;> omega
  · exact buyer_respond_price_le_budget ctx bst sp msgB en ed (by omega)
  · exact seller_floor_le_opening ctx' hm
  · exact seller_respond_price_ge_floor ctx' sst bp msgS en ed hm hed hpos

/-- Witness for C1 at the concrete buyer and seller contexts above, with a
seller price of 190000 and a buyer price of 100000 and eased progress 0. -/
theorem hard_budget_floor_invariant_witness :
    (YourBuyerAgent.generate_opening_offer wCtxBuyer none 0 0).2.1 ≤ wCtxBuyer.your_budget
    ∧ (YourBuyerAgent.respond_to_seller_offer wCtxBuyer none (some 190000) "" 0 1 0 0).2.2.1
        ≤ wCtxBuyer.your_budget
    ∧ YourSellerAgent.walkaway_floor wCtxSeller
        ≤ (YourSellerAgent.generate_opening_offer wCtxSeller none 0 0).2.1
    ∧ YourSellerAgent.walkaway_floor wCtxSeller
        ≤ (YourSellerAgent.respond_to_seller_offer wCtxSeller none (some 100000) "" 0 1 0 0).2.2.1 :=
  hard_budget_floor_invariant wCtxBuyer wCtxSeller none none (some 190000) (some 100000)
    "" "" 0 1 0 0 (by decide) (by decide) (by decide) (by decide)

/-! ## C3 -/

lemma pydiv_nonneg (a n : ℤ) (ha : 0 ≤ a) (hn : 0 ≤ n) : 0 ≤ pydiv a n := by
  unfold pydiv
  split_ifs
  exact Int.ediv_nonneg ha hn

lemma seller_counter_le_last (ctx : NegotiationContext) (st : YourSellerAgent.AgentState)
    (bp : Option ℤ) (t : String)
    (hfl : YourSellerAgent.walkaway_floor ctx
        ≤ ctx.your_offers.getLast?.getD (YourSellerAgent.opening_offer_number ctx)) :
    (YourSellerAgent.bargain_counter ctx st bp t).2.2.1
      ≤ ctx.your_offers.getLast?.getD (YourSellerAgent.opening_offer_number ctx) := by
  have h0 : 0 ≤ pydiv (3 * max 1000 (pydiv (5 * ctx.product.base_market_price) 100)) 2 :=
    pydiv_nonneg _ _ (by omega) (by omega)
  unfold YourSellerAgent.bargain_counter
  simp only
  split_ifs <;> omega

/-- Round-nine seller context whose previous own offer already sits at the
walk-away floor of market 180000. -/
def ctxC3 : NegotiationContext :=
  { product := wProduct
    your_budget := 200000
    current_round := 9
    seller_offers := []
    your_offers := [162000]
    messages := [] }

/-- Counterexample to C3 as stated: at round 9 with a buyer price below the
floor, the seller last shot is `max(floor, market) = 180000`, strictly
above its previous own offer 162000, so the seller offer sequence is not
non-increasing at the finalizing round. -/
theorem offer_monotonicity_counterexample :
    (YourSellerAgent.respond_to_seller_offer ctxC3 none (some 100000) "" 0 1 0 0).2.1
      = DealStatus.ONGOING
    ∧ (YourSellerAgent.respond_to_seller_offer ctxC3 none (some 100000) "" 0 1 0 0).2.2.1
      = 180000
    ∧ ctxC3.your_offers.getLast?.getD 0 = 162000 := by
  refine ⟨by decide, by decide, by decide⟩

/-- C3 amended: monotonicity holds during bargaining (rounds before 9) for
counters, together with the clamp-range invariants that propagate it along
a session: the buyer opening lies in `[1000, min(budget, walkaway)]`
provided the walk-away cap is at least 1000 and the market price is
nonnegative, and every bargaining counter to a supplied seller price is at
least the previous own offer and inside the same range provided the
previous offer is; symmetrically, the seller opening is at least the floor
and every bargaining counter is between the floor and the previous own
offer provided that offer is at least the floor.  At finalizing rounds
(9 and later) the last-shot price can move against the trend, as the
counterexample shows. -/
theorem offer_monotonicity_bargaining
    (ctx ctx' : NegotiationContext) (bst : Option YourBuyerAgent.AgentState)
    (sst : Option YourSellerAgent.AgentState) (p : ℤ) (bp : Option ℤ)
    (msgB msgS : String) (en ed : ℤ) (rl rt : ℕ)
    (hmB : 0 ≤ ctx.product.base_market_price)
    (hwB : 1000 ≤ YourBuyerAgent.walkaway_cap ctx)
    (hrB : ctx.current_round < 9)
    (hlBb : ctx.your_offers.getLast?.getD (YourBuyerAgent.opening_offer_number ctx)
        ≤ ctx.your_budget)
    (hlBw : ctx.your_offers.getLast?.getD (YourBuyerAgent.opening_offer_number ctx)
        ≤ YourBuyerAgent.walkaway_cap ctx)
    (hmS : 0 ≤ ctx'.product.base_market_price)
    (hrS : ctx'.current_round < 9)
    (hlS : YourSellerAgent.walkaway_floor ctx'
        ≤ ctx'.your_offers.getLast?.getD (YourSellerAgent.opening_offer_number ctx')) :
    ((YourBuyerAgent.generate_opening_offer ctx bst rl rt).2.1
        ≤ min ctx.your_budget (YourBuyerAgent.walkaway_cap ctx)
      ∧ 1000 ≤ (YourBuyerAgent.generate_opening_offer ctx bst rl rt).2.1)
    ∧ ((YourBuyerAgent.respond_to_seller_offer ctx bst (some p) msgB en ed rl rt).2.1
          = DealStatus.ONGOING →
        ctx.your_offers.getLast?.getD (YourBuyerAgent.opening_offer_number ctx)
          ≤ (YourBuyerAgent.respond_to_seller_offer ctx bst (some p) msgB en ed rl rt).2.2.1
        ∧ (YourBuyerAgent.respond_to_seller_offer ctx bst (some p) msgB en ed rl rt).2.2.1
          ≤ min ctx.your_budget (YourBuyerAgent.walkaway_cap ctx))
    ∧ YourSellerAgent.walkaway_floor ctx'
        ≤ (YourSellerAgent.generate_opening_offer ctx' sst rl rt).2.1
    ∧ ((YourSellerAgent.respond_to_seller_offer ctx' sst bp msgS en ed rl rt).2.1
          = DealStatus.ONGOING →
        YourSellerAgent.walkaway_floor ctx'
          ≤ (YourSellerAgent.respond_to_seller_offer ctx' sst bp msgS en ed rl rt).2.2.1
        ∧ (YourSellerAgent.respond_to_seller_offer ctx' sst bp msgS en ed rl rt).2.2.1
          ≤ ctx'.your_offers.getLast?.getD (YourSellerAgent.opening_offer_number ctx')) := by
  refine ⟨?_, ?_, seller_floor_le_opening ctx' hmS, ?_⟩
  · unfold YourBuyerAgent.generate_opening_offer YourBuyerAgent.opening_offer_number
      YourBuyerAgent.walkaway_cap pydiv at *
    simp only at *
    constructor
    · dsimp only
      split_ifs at * <;> omega
    · dsimp only
      split_ifs <;> omega
  · unfold YourBuyerAgent.respond_to_seller_offer YourBuyerAgent.respond_content
    simp only
    split_ifs <;>
      first
        | (exfalso; omega)
        | (intro _;
           exact ⟨(buyer_counter_price_bounds _ _ _ _ _).2 hlBb hlBw,
             (buyer_counter_price_bounds _ _ _ _ _).1⟩)
        | (intro h; simp at h)
  · unfold YourSellerAgent.respond_to_seller_offer YourSellerAgent.respond_content
    rcases bp with _ | q <;> simp only <;> split_ifs <;>
      first
        | (exfalso; omega)
        | (intro _;
           exact ⟨seller_counter_price_ge _ _ _ _, seller_counter_le_last _ _ _ _ hlS⟩)
        | (intro h; simp at h)

/-- Witness for C3 at the concrete bargaining contexts above, with a seller
price of 190000 and a buyer price of 100000 (both of which lead to
counters). -/
theorem offer_monotonicity_bargaining_witness :
    ((YourBuyerAgent.generate_opening_offer wCtxBuyer none 0 0).2.1
        ≤ min wCtxBuyer.your_budget (YourBuyerAgent.walkaway_cap wCtxBuyer)
      ∧ 1000 ≤ (YourBuyerAgent.generate_opening_offer wCtxBuyer none 0 0).2.1)
    ∧ ((YourBuyerAgent.respond_to_seller_offer wCtxBuyer none (some 190000) "" 0 1 0 0).2.1
          = DealStatus.ONGOING →
        wCtxBuyer.your_offers.getLast?.getD (YourBuyerAgent.opening_offer_number wCtxBuyer)
          ≤ (YourBuyerAgent.respond_to_seller_offer wCtxBuyer none (some 190000) "" 0 1 0 0).2.2.1
        ∧ (YourBuyerAgent.respond_to_seller_offer wCtxBuyer none (some 190000) "" 0 1 0 0).2.2.1
          ≤ min wCtxBuyer.your_budget (YourBuyerAgent.walkaway_cap wCtxBuyer))
    ∧ YourSellerAgent.walkaway_floor wCtxSeller
        ≤ (YourSellerAgent.generate_opening_offer wCtxSeller none 0 0).2.1
    ∧ ((YourSellerAgent.respond_to_seller_offer wCtxSeller none (some 100000) "" 0 1 0 0).2.1
          = DealStatus.ONGOING →
        YourSellerAgent.walkaway_floor wCtxSeller
          ≤ (YourSellerAgent.respond_to_seller_offer wCtxSeller none (some 100000) "" 0 1 0 0).2.2.1
        ∧ (YourSellerAgent.respond_to_seller_offer wCtxSeller none (some 100000) "" 0 1 0 0).2.2.1
          ≤ wCtxSeller.your_offers.getLast?.getD
              (YourSellerAgent.opening_offer_number wCtxSeller)) :=
  offer_monotonicity_bargaining wCtxBuyer wCtxSeller none none 190000 (some 100000)
    "" "" 0 1 0 0 (by decide) (by decide) (by decide) (by decide) (by decide)
    (by decide) (by decide) (by decide)

/-! ## C4 -/

/-- Buyer estimator state after observing 100000 and then 200000: running
minimum 100000, decayed estimate 119000. -/
def estStateUp : YourBuyerAgent.AgentState :=
  YourBuyerAgent.update_seller_estimates
    (YourBuyerAgent.update_seller_estimates YourBuyerAgent.initial_state 100000) 200000

/-- Buyer estimator state after observing 200000 and then 100000: the same
running minimum 100000, but decayed estimate 136000. -/
def estStateDown : YourBuyerAgent.AgentState :=
  YourBuyerAgent.update_seller_estimates
    (YourBuyerAgent.update_seller_estimates YourBuyerAgent.initial_state 200000) 100000

/-- Counterexample to C4 as stated: two observation sequences with the same
running extreme but different decayed proxy estimates produce the same
closing target, so the decayed estimate does not influence the closing
target. -/
theorem closing_target_two_stage_counterexample :
    estStateUp.min_seller_seen = estStateDown.min_seller_seen
    ∧ estStateUp.seller_min_est ≠ estStateDown.seller_min_est
    ∧ YourBuyerAgent.closing_target_from_estimate estStateUp
        = YourBuyerAgent.closing_target_from_estimate estStateDown := by
  refine ⟨by decide, by decide, by decide⟩

/-- C4 amended: the decayed proxy estimate (`seller_min_est` for the buyer,
`buyer_max_est` for the seller) is maintained by the estimator but never
read; the closing target is a function of the running extreme alone —
for the buyer `max(1000, int(int(extreme * 0.98) * 1.10))` and for the
seller `int(extreme * 1.02)`, absent whenever the extreme is falsy. -/
theorem closing_target_extreme_only
    (st st' : YourBuyerAgent.AgentState) (h : st.min_seller_seen = st'.min_seller_seen)
    (ss ss' : YourSellerAgent.AgentState) (h' : ss.max_buyer_seen = ss'.max_buyer_seen) :
    YourBuyerAgent.closing_target_from_estimate st
      = YourBuyerAgent.closing_target_from_estimate st'
    ∧ (∀ m : ℤ, st.min_seller_seen = some m → m ≠ 0 →
        YourBuyerAgent.closing_target_from_estimate st
          = some (max 1000 (pydiv (110 * pydiv (98 * m) 100) 100)))
    ∧ YourSellerAgent.closing_target_from_estimate ss
      = YourSellerAgent.closing_target_from_estimate ss'
    ∧ (∀ m : ℤ, ss.max_buyer_seen = some m → m ≠ 0 →
        YourSellerAgent.closing_target_from_estimate ss = some (pydiv (102 * m) 100)) := by
  refine ⟨?_, ?_, ?_, ?_⟩
  · unfold YourBuyerAgent.closing_target_from_estimate
    rw [h]
  · intro m hm hm0
    unfold YourBuyerAgent.closing_target_from_estimate
    rw [hm]
    simp [hm0]
  · unfold YourSellerAgent.closing_target_from_estimate
    rw [h']
  · intro m hm hm0
    unfold YourSellerAgent.closing_target_from_estimate
    rw [hm]
    simp [hm0]

/-- Witness for C4: the closing targets of the two concrete estimator
states above coincide and equal the extreme-only formula at extreme
100000. -/
theorem closing_target_extreme_only_witness :
    YourBuyerAgent.closing_target_from_estimate estStateUp
      = YourBuyerAgent.closing_target_from_estimate estStateDown
    ∧ YourBuyerAgent.closing_target_from_estimate estStateUp
      = some (max 1000 (pydiv (110 * pydiv (98 * 100000) 100) 100)) :=
  ⟨(closing_target_extreme_only estStateUp estStateDown (by decide)
      YourSellerAgent.initial_state YourSellerAgent.initial_state rfl).1,
   (closing_target_extreme_only estStateUp estStateDown (by decide)
      YourSellerAgent.initial_state YourSellerAgent.initial_state rfl).2.1
     100000 (by decide) (by decide)⟩

/-! ## C5 -/

/-- The gap-tier step schedule that the specification ascribes to the
seller, written out from the words of the spec for comparison with the
source: relative gap above 18 percent gives a step of about 6 percent of
market, between 7 and 18 percent the average of the large and small steps,
and at most 7 percent about 2 percent of market (each floored at the
minimum step 1000, comparisons by cross-multiplication with the positive
denominator). -/
def spec_seller_gap_step (market gap last_my : ℤ) : ℤ :=
  let base_far := max 1000 (pydiv (6 * market) 100)
  let base_close := max 1000 (pydiv (2 * market) 100)
  let den := max 1 last_my
  if 18 * den < 100 * gap then base_far
  else if 7 * den < 100 * gap then pydiv (base_far + base_close) 2
  else base_close

/-- Product with market price 100000 for the step-schedule scenarios. -/
def pMarket100 : Product :=
  { name := "Kesar Mangoes"
    category := "Mangoes"
    quantity := 150
    quality_grade := "B"
    origin := "Gujarat"
    base_market_price := 100000
    attributes := [] }

/-- Round-four seller context with previous own offer 125000. -/
def ctxC5 : NegotiationContext :=
  { product := pMarket100
    your_budget := 200000
    current_round := 4
    seller_offers := []
    your_offers := [125000]
    messages := [] }

/-- Counterexample to C5 as stated: with a relative gap of 60 percent
(buyer price 50000 against own offer 125000), the spec schedule prescribes
the large step of 6000 (6 percent of market 100000), but the seller counters
at 120000, a step of 5000 — the source uses a flat 5 percent step and never
reads the gap. -/
theorem seller_step_gap_counterexample :
    (YourSellerAgent.respond_to_seller_offer ctxC5 none (some 50000) "" 1 3 0 0).2.1
      = DealStatus.ONGOING
    ∧ (YourSellerAgent.respond_to_seller_offer ctxC5 none (some 50000) "" 1 3 0 0).2.2.1
      = 120000
    ∧ spec_seller_gap_step 100000 (125000 - 50000) 125000 = 6000
    ∧ (125000 : ℤ) - 120000 ≠ 6000 := by
  refine ⟨by decide, by decide, by decide, by decide⟩

lemma seller_counter_price_eq (ctx : NegotiationContext) (st : YourSellerAgent.AgentState)
    (bp : Option ℤ) (t : String) :
    (YourSellerAgent.bargain_counter ctx st bp t).2.2.1
      = max (ctx.your_offers.getLast?.getD (YourSellerAgent.opening_offer_number ctx)
          - (if 5 < max 1 (min 10 ctx.current_round)
              then pydiv (3 * max 1000 (pydiv (5 * ctx.product.base_market_price) 100)) 2
              else max 1000 (pydiv (5 * ctx.product.base_market_price) 100)))
        (YourSellerAgent.walkaway_floor ctx) := by
  unfold YourSellerAgent.bargain_counter
  simp only

/-- C5 amended: in every bargaining round of the seller (round before 9,
no dynamic-target acceptance), the counter price is
`max(last_offer - step, floor)` where the step does not depend on the gap:
it is the flat `int(max(1000, market * 0.05))`, multiplied by 1.5 after
round five.  The gap-tier schedule of the claim exists only on the buyer
side; the seller computes the gap but never uses it. -/
theorem seller_flat_step
    (ctx : NegotiationContext) (sst : Option YourSellerAgent.AgentState)
    (bp : Option ℤ) (msg : String) (en ed : ℤ) (rl rt : ℕ)
    (hr : ctx.current_round < 9)
    (hnoacc : ∀ q : ℤ, bp = some q → q ≠ 0 → q < YourSellerAgent.dynamic_target ctx en ed) :
    (YourSellerAgent.respond_to_seller_offer ctx sst bp msg en ed rl rt).2.1
      = DealStatus.ONGOING
    ∧ (YourSellerAgent.respond_to_seller_offer ctx sst bp msg en ed rl rt).2.2.1
      = max (ctx.your_offers.getLast?.getD (YourSellerAgent.opening_offer_number ctx)
          - (if 5 < max 1 (min 10 ctx.current_round)
              then pydiv (3 * max 1000 (pydiv (5 * ctx.product.base_market_price) 100)) 2
              else max 1000 (pydiv (5 * ctx.product.base_market_price) 100)))
        (YourSellerAgent.walkaway_floor ctx) := by
  unfold YourSellerAgent.respond_to_seller_offer YourSellerAgent.respond_content
  rcases bp with _ | q
  · simp only
    rw [if_neg (show ¬ 9 ≤ ctx.current_round by omega)]
    exact ⟨seller_counter_status _ _ _ _, seller_counter_price_eq _ _ _ _⟩
  · have hneg : ¬(q ≠ 0 ∧ YourSellerAgent.dynamic_target ctx en ed ≤ q) := by
      rintro ⟨hq0, hdy⟩
      exact absurd (hnoacc q rfl hq0) (by omega)
    simp only
    rw [if_neg (show ¬ 9 ≤ ctx.current_round by omega), if_neg hneg]
    exact ⟨seller_counter_status _ _ _ _, seller_counter_price_eq _ _ _ _⟩

/-- Witness for C5 at the concrete round-four context, buyer price 50000,
eased progress 1/3: the counter is 120000 = 125000 minus the flat step
5000. -/
theorem seller_flat_step_witness :
    (YourSellerAgent.respond_to_seller_offer ctxC5 none (some 50000) "" 1 3 0 0).2.1
      = DealStatus.ONGOING
    ∧ (YourSellerAgent.respond_to_seller_offer ctxC5 none (some 50000) "" 1 3 0 0).2.2.1
      = max (ctxC5.your_offers.getLast?.getD (YourSellerAgent.opening_offer_number ctxC5)
          - (if 5 < max 1 (min 10 ctxC5.current_round)
              then pydiv (3 * max 1000 (pydiv (5 * ctxC5.product.base_market_price) 100)) 2
              else max 1000 (pydiv (5 * ctxC5.product.base_market_price) 100)))
        (YourSellerAgent.walkaway_floor ctxC5) :=
  seller_flat_step ctxC5 none (some 50000) "" 1 3 0 0 (by decide)
    (by intro q hq hq0; cases hq; decide)

/-! ## C6 -/

/-- First-session buyer context: round 2, budget 100000, market 100000,
previous own offer 72000. -/
def ctxS1 : NegotiationContext :=
  { product := pMarket100
    your_budget := 100000
    current_round := 2
    seller_offers := []
    your_offers := [72000]
    messages := [] }

/-- Second-session buyer context on the same agent instance: round 3,
previous own offer 80000. -/
def ctxS2 : NegotiationContext :=
  { product := pMarket100
    your_budget := 100000
    current_round := 3
    seller_offers := []
    your_offers := [80000]
    messages := [] }

/-- The state the buyer instance carries out of the first session after
observing a seller price of 50000. -/
def carried_state : YourBuyerAgent.AgentState :=
  (YourBuyerAgent.respond_to_seller_offer ctxS1 none (some 50000) "" 0 1 0 0).1

/-- Counterexample to C6 as stated: the state carried out of session one is
not the fresh state, and a second-session call on the same instance (whose
`hasattr` guard keeps the carried state) returns the counter 86000, while
the same call on a fresh instance returns 88000 — decisions in one session
depend on an earlier session of the same agent instance. -/
theorem state_freshness_counterexample :
    carried_state ≠ YourBuyerAgent.initial_state
    ∧ (YourBuyerAgent.respond_to_seller_offer ctxS2 (some carried_state)
        (some 200000) "" 0 1 0 0).2.2.1 = 86000
    ∧ (YourBuyerAgent.respond_to_seller_offer ctxS2 none
        (some 200000) "" 0 1 0 0).2.2.1 = 88000 := by
  refine ⟨by decide, by decide, by decide⟩

/-- C6 amended: the `AgentState` is created lazily at the first call on an
agent instance and persists for the lifetime of that instance: the
`hasattr` guard of `_init_state` keeps an existing state across sessions
(so a later session on the same instance — as in the test harness, which
reuses one agent across all scenarios — can depend on earlier sessions),
and builds the fresh state only when none exists yet. -/
theorem state_lazy_persistence (s : YourBuyerAgent.AgentState)
    (t : YourSellerAgent.AgentState) :
    YourBuyerAgent.init_state (some s) = s
    ∧ YourBuyerAgent.init_state none = YourBuyerAgent.initial_state
    ∧ YourSellerAgent.init_state (some t) = t
    ∧ YourSellerAgent.init_state none = YourSellerAgent.initial_state :=
  ⟨rfl, rfl, rfl, rfl⟩
